import Mathlib

/-!
Shallow embedding of the authentication routes of the VisonCraft backend
(`src/routes/auth.js`): the `protect` middleware and the register, login,
profile (`/me`), logout and admin-login handlers, together with a model of
the JSON web tokens they issue and verify.

Conventions of the embedding:
* Machine state is the list of stored users (the data store); handlers that
  may write return `Response × List User`.
* Each `await` on the data store may throw; a throw is injected through an
  explicit `Option String` parameter carrying the thrown error's message
  (`none` = the call succeeds), and lands in the handler's `catch` block
  exactly as in the source.
* JSON bodies are built literally, field by field, as the source's
  `res.json` object literals.
-/

mutual
/-- JSON values, as produced by the handlers' `res.json` object literals.
Object field lists are their own inductive (`JsonFields`) so that the
functions below are structurally recursive. -/
inductive Json where
  | null : Json
  | str : String → Json
  | num : Nat → Json
  | obj : JsonFields → Json
deriving DecidableEq, Repr
/-- The (ordered) fields of a JSON object. -/
inductive JsonFields where
  | nil : JsonFields
  | cons : String → Json → JsonFields → JsonFields
deriving DecidableEq, Repr
end

/-- Build a field list from a plain list of key/value pairs. -/
def jfields : List (String × Json) → JsonFields
  | [] => .nil
  | (k, v) :: rest => .cons k v (jfields rest)

/-- Build a JSON object from a plain list of key/value pairs. -/
def Json.objL (l : List (String × Json)) : Json := .obj (jfields l)

mutual
/-- Whether a JSON value contains a field named `k`, at any depth. -/
def Json.hasKey : Json → String → Bool
  | .obj fs, k => fs.hasKey k
  | _, _ => false
/-- Whether a field list contains a field named `k`, at any depth. -/
def JsonFields.hasKey : JsonFields → String → Bool
  | .nil, _ => false
  | .cons k' v rest, k => k' == k || v.hasKey k || rest.hasKey k
end

mutual
/-- A flat serialization of a JSON value (used as the byte string a
token's signature is computed over). -/
def Json.encode : Json → String
  | .null => "null"
  | .str s => "s(" ++ s ++ ")"
  | .num n => "n(" ++ toString n ++ ")"
  | .obj fs => "o(" ++ fs.encode ++ ")"
/-- Serialization of a field list. -/
def JsonFields.encode : JsonFields → String
  | .nil => ""
  | .cons k v rest => k ++ "=" ++ v.encode ++ ";" ++ rest.encode
end

/-- Look up a field in a field list. -/
def JsonFields.find? : JsonFields → String → Option Json
  | .nil, _ => none
  | .cons k' v rest, k => if k' == k then some v else rest.find? k

/-- A stored user record, with the fields the routes read
(`src/models/User` documents referenced from `auth.js`).  `password`
holds the stored hash, never the cleartext. -/
structure User where
  id : Nat
  email : String
  password : String
  firstName : String
  lastName : String
  phone : String
  role : String
  address : String
  languagePreference : String
  createdAt : Nat
  updatedAt : Nat
deriving Repr, DecidableEq

/-- Process environment: `process.env.JWT_SECRET`, `process.env.JWT_EXPIRES_IN`,
and the current clock reading used by `jwt.sign` / `jwt.verify`. -/
structure Env where
  secret : Nat
  expiresIn : Nat
  now : Nat
deriving Repr, DecidableEq

/-- Modelled from the spec: the User model file is not under `src/`, so the
salted irreversible password hash it stores is modelled as an injective
keyed tagging of the cleartext. -/
def hashPw (p : String) : String := "bcrypt$" ++ p

/-- Modelled from the spec: `user.comparePassword(candidate)` checks the
candidate against the stored hash. -/
def comparePassword (stored candidate : String) : Bool :=
  stored == hashPw candidate

/-- The deterministic signature `jwt.sign` computes over the payload and
expiry with the secret key (a MAC, modelled as a keyed encoding). -/
def jwtMac (payload : Json) (exp : Nat) (secret : Nat) : String :=
  payload.encode ++ "|" ++ toString exp ++ "|" ++ toString secret

/-- A token as it travels on the wire: either an unparseable string or a
signed payload with an expiry timestamp and a signature. -/
inductive WireToken where
  | malformed : String → WireToken
  | signed : Json → Nat → String → WireToken
deriving Repr, DecidableEq

/-- The payload part of a wire token (`.null` when unparseable). -/
def WireToken.payload : WireToken → Json
  | .malformed _ => .null
  | .signed p _ _ => p

/-- The expiry of a wire token (0 when unparseable). -/
def WireToken.exp : WireToken → Nat
  | .malformed _ => 0
  | .signed _ e _ => e

/-- The string form that is placed into response bodies. -/
def WireToken.encode : WireToken → String
  | .malformed s => s
  | .signed p e s => p.encode ++ "|" ++ toString e ++ "|" ++ s

/-- Why `jwt.verify` throws. -/
inductive JwtError where
  | malformed : JwtError
  | badSignature : JwtError
  | expired : JwtError
deriving Repr, DecidableEq

/-- `jwt.verify(token, secret)`: rejects unparseable tokens, recomputes and
checks the signature, and rejects tokens whose expiry has passed; on
success returns the decoded payload. -/
def jwtVerify (env : Env) : WireToken → Except JwtError Json
  | .malformed _ => .error .malformed
  | .signed p e s =>
    if s ≠ jwtMac p e env.secret then .error .badSignature
    else if e ≤ env.now then .error .expired
    else .ok p

/-- `jwt.sign({ id }, JWT_SECRET, { expiresIn })` as the three handlers call
it: the payload carries exactly the field `id`. -/
def issueToken (id : Nat) (env : Env) : WireToken :=
  .signed (Json.objL [("id", .num id)]) (env.now + env.expiresIn)
    (jwtMac (Json.objL [("id", .num id)]) (env.now + env.expiresIn) env.secret)

/-- Look up a numeric field of a JSON object (`decoded.id`). -/
def Json.getNum (j : Json) (k : String) : Option Nat :=
  match j with
  | .obj fields =>
    match fields.find? k with
    | some (.num n) => some n
    | _ => none
  | _ => none

/-- `User.findById(id)`. -/
def findById (store : List User) (i : Nat) : Option User :=
  store.find? (·.id == i)

/-- `User.findOne({ email })`. -/
def findOneByEmail (store : List User) (e : String) : Option User :=
  store.find? (·.email == e)

/-- `.select('-password')`: the resolved identity with the hash dropped. -/
def User.withoutPassword (u : User) : User :=
  { u with password := "" }

/-- An HTTP response: status code plus JSON body. -/
structure Response where
  status : Nat
  body : Json
deriving Repr, DecidableEq

/-- The uniform error envelope `{ status: 'error', message }`. -/
def errBody (msg : String) : Json :=
  Json.objL [("status", .str "error"), ("message", .str msg)]

/-- The one response `protect` ever sends on failure
(lines 16–19 and 26–29 of `auth.js`, byte-identical bodies). -/
def notAuthorized : Response :=
  ⟨401, errBody "Not authorized to access this route"⟩

/-- The `Authorization` header as the extraction at lines 11–13 classifies
it: absent; present but not starting with `Bearer`; starting with `Bearer`
but with no second space-separated part (`split(' ')[1]` undefined); or a
well-formed `Bearer <token>`. -/
inductive AuthHeader where
  | absent : AuthHeader
  | notBearer : String → AuthHeader
  | bearerNoToken : AuthHeader
  | bearer : WireToken → AuthHeader

/-- Outcome of the `protect` middleware: a response written by the
middleware itself, or `next()` with `req.user` set to the looked-up record
(possibly null). -/
inductive ProtectResult where
  | halt : Response → ProtectResult
  | next : Option User → ProtectResult
deriving Repr, DecidableEq

/-- The `protect` middleware (`auth.js` lines 8–31): extract the bearer
token, 401 if missing; `jwt.verify`, any throw lands in the catch block's
401; then `req.user = await User.findById(decoded.id).select('-password')`
and `next()` — with no check that the lookup found anyone.  `failFind`
injects a data-store throw on the `findById` call (caught → 401). -/
def protect (env : Env) (failFind : Option String) (store : List User)
    (auth : AuthHeader) : ProtectResult :=
  match auth with
  | .absent => .halt notAuthorized
  | .notBearer _ => .halt notAuthorized
  | .bearerNoToken => .halt notAuthorized
  | .bearer w =>
    match jwtVerify env w with
    | .error _ => .halt notAuthorized
    | .ok payload =>
      match failFind with
      | some _ => .halt notAuthorized
      | none =>
        .next (((payload.getNum "id").bind (findById store)).map User.withoutPassword)

/-- The `{ id, email, firstName, lastName, role }` user object the register,
login and admin-login responses embed (`auth.js` lines 62–68, 107–113,
195–201). -/
def userSummaryJson (u : User) : Json :=
  Json.objL [("id", .num u.id), ("email", .str u.email),
    ("firstName", .str u.firstName), ("lastName", .str u.lastName),
    ("role", .str u.role)]

/-- The `{ status: 'success', token, data: { user } }` envelope. -/
def successAuthBody (t : WireToken) (u : User) : Json :=
  Json.objL [("status", .str "success"), ("token", .str t.encode),
    ("data", Json.objL [("user", userSummaryJson u)])]

/-- The request body fields the register handler destructures. -/
structure RegisterInput where
  email : String
  password : String
  firstName : String
  lastName : String
  phone : String
deriving Repr, DecidableEq

/-- Modelled from the spec and the repository's own `Improvisation.md`: the
User model file is not under `src/`, and `Improvisation.md` records that
email format, password strength and required fields are NOT validated, so
`User.create` is modelled as unconditionally storing the record (password
hashed by the pre-save hook, role defaulting to `customer`).  `freshId` is
the identifier the store assigns. -/
def createUser (freshId : Nat) (inp : RegisterInput) : User :=
  { id := freshId, email := inp.email, password := hashPw inp.password,
    firstName := inp.firstName, lastName := inp.lastName, phone := inp.phone,
    role := "customer", address := "", languagePreference := "",
    createdAt := 0, updatedAt := 0 }

/-- `POST /register` (`auth.js` lines 34–77).  `failFindOne` / `failCreate`
inject data-store throws on the two awaits; either lands in the catch
block, which answers 400 with the error's own message (line 72–75). -/
def register (env : Env) (failFindOne failCreate : Option String)
    (store : List User) (freshId : Nat) (inp : RegisterInput) :
    Response × List User :=
  match failFindOne with
  | some msg => (⟨400, errBody msg⟩, store)
  | none =>
    match findOneByEmail store inp.email with
    | some _ => (⟨400, errBody "User already exists"⟩, store)
    | none =>
      match failCreate with
      | some msg => (⟨400, errBody msg⟩, store)
      | none =>
        let u := createUser freshId inp
        (⟨201, successAuthBody (issueToken u.id env) u⟩, store ++ [u])

/-- The request body fields the login handlers destructure; `none` models
an absent field. -/
structure LoginInput where
  email : Option String
  password : Option String
deriving Repr, DecidableEq

/-- JavaScript falsiness of a destructured string field (`!email`):
absent or the empty string. -/
def falsy : Option String → Bool
  | none => true
  | some s => s == ""

/-- `POST /login` (`auth.js` lines 80–122).  Missing/empty credentials →
400; unknown email or wrong password → the same 401 `Invalid credentials`
response (single branch, line 92–97); otherwise sign a token and answer
200.  A data-store throw lands in the catch block: 400 with the error's
message. -/
def login (env : Env) (failFindOne : Option String) (store : List User)
    (inp : LoginInput) : Response :=
  if falsy inp.email || falsy inp.password then
    ⟨400, errBody "Please provide email and password"⟩
  else
    match failFindOne with
    | some msg => ⟨400, errBody msg⟩
    | none =>
      match findOneByEmail store (inp.email.getD "") with
      | none => ⟨401, errBody "Invalid credentials"⟩
      | some u =>
        if comparePassword u.password (inp.password.getD "") then
          ⟨200, successAuthBody (issueToken u.id env) u⟩
        else ⟨401, errBody "Invalid credentials"⟩

/-- The `{ status: 'success', data: { user } }` body of `GET /me`, with the
profile fields of lines 137–148. -/
def profileBody (u : User) : Json :=
  Json.objL [("status", .str "success"),
    ("data", Json.objL [("user",
      Json.objL [("id", .num u.id), ("email", .str u.email),
                ("firstName", .str u.firstName), ("lastName", .str u.lastName),
                ("role", .str u.role), ("phone", .str u.phone),
                ("address", .str u.address),
                ("languagePreference", .str u.languagePreference),
                ("createdAt", .num u.createdAt),
                ("updatedAt", .num u.updatedAt)])])]

/-- The `GET /me` handler body (`auth.js` lines 125–157), run after
`protect` with `reqUser = req.user`.  When `req.user` is null, reading
`req.user._id` throws a TypeError, caught at line 151 → 500 with a generic
message; a data-store throw on `findById` lands in the same catch. -/
def meHandler (failFind : Option String) (store : List User)
    (reqUser : Option User) : Response :=
  match reqUser with
  | none => ⟨500, errBody "Error retrieving user profile"⟩
  | some ru =>
    match failFind with
    | some _ => ⟨500, errBody "Error retrieving user profile"⟩
    | none =>
      match findById store ru.id with
      | none => ⟨404, errBody "User not found"⟩
      | some u => ⟨200, profileBody u⟩

/-- `GET /me` as routed: `protect` first, then the handler. -/
def meRoute (env : Env) (failProtect failFind : Option String)
    (store : List User) (auth : AuthHeader) : Response :=
  match protect env failProtect store auth with
  | .halt r => r
  | .next ru => meHandler failFind store ru

/-- `POST /logout` (`auth.js` lines 160–165): `protect`, then an
unconditional success message.  No store field is touched and no
revocation record of any kind exists in the program. -/
def logoutRoute (env : Env) (failProtect : Option String)
    (store : List User) (auth : AuthHeader) : Response × List User :=
  match protect env failProtect store auth with
  | .halt r => (r, store)
  | .next _ =>
    (⟨200, Json.objL [("status", .str "success"),
                      ("message", .str "Logged out successfully")]⟩, store)

/-- `POST /admin/login` (`auth.js` lines 168–210): like login but the
lookup is `User.findOne({ email, role: 'admin' })`, the failure message is
`Invalid admin credentials`, and the catch block answers 500 with a
generic message. -/
def adminLogin (env : Env) (failFindOne : Option String) (store : List User)
    (inp : LoginInput) : Response :=
  if falsy inp.email || falsy inp.password then
    ⟨400, errBody "Please provide email and password"⟩
  else
    match failFindOne with
    | some _ => ⟨500, errBody "Error during admin login"⟩
    | none =>
      match store.find? (fun u => u.email == inp.email.getD "" && u.role == "admin") with
      | none => ⟨401, errBody "Invalid admin credentials"⟩
      | some u =>
        if comparePassword u.password (inp.password.getD "") then
          ⟨200, successAuthBody (issueToken u.id env) u⟩
        else ⟨401, errBody "Invalid admin credentials"⟩

/-! ## Concrete fixtures used by counterexamples and witnesses -/

/-- A concrete environment: secret 42, 1000-tick expiry window, clock at 5. -/
def envX : Env := ⟨42, 1000, 5⟩

/-- A stored customer whose password is the hash of `Passw0rd!`. -/
def aliceU : User :=
  ⟨1, "alice@x.in", hashPw "Passw0rd!", "Alice", "L", "9876543210",
   "customer", "", "", 0, 0⟩

/-! ## Claims -/

/-- C1 counterexample: a token issued for the stored user is presented to
logout, which answers 200; the very same token, with valid signature and
before its expiry, is then still accepted by `protect` (the middleware
calls `next()` with the resolved user) instead of being rejected 401. -/
theorem c1_logout_does_not_revoke_cex :
    (logoutRoute envX none [aliceU] (.bearer (issueToken 1 envX))).fst.status = 200 ∧
    (logoutRoute envX none [aliceU] (.bearer (issueToken 1 envX))).snd = [aliceU] ∧
    jwtVerify envX (issueToken 1 envX) = .ok (Json.objL [("id", Json.num 1)]) ∧
    protect envX none [aliceU] (.bearer (issueToken 1 envX)) =
      ProtectResult.next (some aliceU.withoutPassword) := by
  refine ⟨rfl, rfl, rfl, rfl⟩

/-- C1 (amended): logout performs no revocation at all — it leaves the data
store untouched, and the outcome of `protect` on any later request is
exactly what it was before the logout; a logged-out token stays valid
until its natural expiry. -/
theorem c1_logout_no_revocation (env : Env) (f : Option String)
    (store : List User) (auth : AuthHeader) :
    (logoutRoute env f store auth).snd = store ∧
    ∀ (f2 : Option String) (auth2 : AuthHeader),
      protect env f2 (logoutRoute env f store auth).snd auth2 =
        protect env f2 store auth2 := by
  have hsnd : (logoutRoute env f store auth).snd = store := by
    unfold logoutRoute
    split <;> rfl
  exact ⟨hsnd, fun f2 auth2 => by rw [hsnd]⟩

/-- C2 counterexample: the one-character password `x` (shorter than 8,
no uppercase, no digit, no special character) is accepted by register:
the response is 201 and the identity is created and stored. -/
theorem c2_weak_password_accepted_cex :
    (register envX none none [] 1 ⟨"a@b.c", "x", "F", "L", "9876543210"⟩).fst.status = 201 ∧
    (register envX none none [] 1 ⟨"a@b.c", "x", "F", "L", "9876543210"⟩).snd =
      [createUser 1 ⟨"a@b.c", "x", "F", "L", "9876543210"⟩] := by
  exact ⟨rfl, rfl⟩

/-- C2 (amended): register performs no password-strength validation
whatsoever — for any input whose email is not already stored, whatever the
password, the handler stores the new identity and answers 201 with a
token. -/
theorem c2_register_no_password_validation (env : Env) (store : List User)
    (freshId : Nat) (inp : RegisterInput)
    (h : findOneByEmail store inp.email = none) :
    register env none none store freshId inp =
      (⟨201, successAuthBody (issueToken freshId env) (createUser freshId inp)⟩,
       store ++ [createUser freshId inp]) := by
  unfold register
  rw [h]
  rfl

/-- C2 amended witness at a concrete weak-password input. -/
theorem c2_register_no_password_validation_witness :
    register envX none none [] 2 ⟨"b@b.c", "abc", "F", "L", "9876543210"⟩ =
      (⟨201, successAuthBody (issueToken 2 envX)
        (createUser 2 ⟨"b@b.c", "abc", "F", "L", "9876543210"⟩)⟩,
       [createUser 2 ⟨"b@b.c", "abc", "F", "L", "9876543210"⟩]) := by
  exact c2_register_no_password_validation envX [] 2
    ⟨"b@b.c", "abc", "F", "L", "9876543210"⟩ rfl

/-- C3 counterexample: a token signed for subject id 7 verifies against an
empty store; `protect` does not answer 401 — it calls `next()` with a null
`req.user`, and the `/me` route consequently answers 500, not 401. -/
theorem c3_missing_subject_not_rejected_cex :
    jwtVerify envX (issueToken 7 envX) = .ok (Json.objL [("id", Json.num 7)]) ∧
    findById [] 7 = none ∧
    protect envX none [] (.bearer (issueToken 7 envX)) = ProtectResult.next none ∧
    meRoute envX none none [] (.bearer (issueToken 7 envX)) =
      ⟨500, errBody "Error retrieving user profile"⟩ := by
  refine ⟨rfl, rfl, rfl, rfl⟩

/-- C3 (amended): whenever the bearer token verifies but its subject id
resolves to no stored identity, `protect` proceeds to the next handler
with a null user instead of responding 401; the `/me` handler then fails
downstream with a 500. -/
theorem c3_protect_continues_on_missing_subject (env : Env)
    (store : List User) (w : WireToken) (p : Json)
    (h1 : jwtVerify env w = .ok p)
    (h2 : (p.getNum "id").bind (findById store) = none) :
    protect env none store (.bearer w) = ProtectResult.next none ∧
    meRoute env none none store (.bearer w) =
      ⟨500, errBody "Error retrieving user profile"⟩ := by
  have hstep : protect env none store (.bearer w) =
      match jwtVerify env w with
      | Except.error _ => ProtectResult.halt notAuthorized
      | Except.ok payload =>
        ProtectResult.next
          (((payload.getNum "id").bind (findById store)).map User.withoutPassword) := rfl
  have hp : protect env none store (.bearer w) = ProtectResult.next none := by
    rw [hstep, h1]
    show ProtectResult.next
        (((p.getNum "id").bind (findById store)).map User.withoutPassword) =
      ProtectResult.next none
    rw [h2]
    rfl
  refine ⟨hp, ?_⟩
  unfold meRoute
  rw [hp]
  rfl

/-- C3 amended witness at a concrete input. -/
theorem c3_protect_continues_on_missing_subject_witness :
    protect envX none [aliceU] (.bearer (issueToken 9 envX)) =
      ProtectResult.next none ∧
    meRoute envX none none [aliceU] (.bearer (issueToken 9 envX)) =
      ⟨500, errBody "Error retrieving user profile"⟩ :=
  c3_protect_continues_on_missing_subject envX [aliceU] (issueToken 9 envX)
    (Json.objL [("id", Json.num 9)]) rfl rfl

/-- Every response the `protect` middleware itself writes is the single
generic 401; used both for the indistinguishability claim and to settle
`/me` responses routed through `protect`. -/
lemma protect_halt_eq_notAuthorized (env : Env) (f : Option String)
    (store : List User) (auth : AuthHeader) (r : Response)
    (h : protect env f store auth = ProtectResult.halt r) :
    r = notAuthorized := by
  cases auth with
  | absent => exact (ProtectResult.halt.inj h).symm
  | notBearer s => exact (ProtectResult.halt.inj h).symm
  | bearerNoToken => exact (ProtectResult.halt.inj h).symm
  | bearer w =>
    simp only [protect] at h
    cases hjv : jwtVerify env w with
    | error e =>
      rw [hjv] at h
      exact (ProtectResult.halt.inj h).symm
    | ok payload =>
      rw [hjv] at h
      cases f with
      | some m => exact (ProtectResult.halt.inj h).symm
      | none => exact ProtectResult.noConfusion h

/-- C4: every request `protect` rejects — missing bearer token, header not
in bearer form, malformed token, bad signature, expired token, or even a
data-store throw during subject lookup — receives the one identical
response: status 401 with the same generic message.  Two rejected
requests are therefore indistinguishable by their responses. -/
theorem c4_protect_failures_indistinguishable (env : Env) (f : Option String)
    (store : List User) (auth : AuthHeader) (r : Response)
    (h : protect env f store auth = ProtectResult.halt r) :
    r = notAuthorized ∧ r.status = 401 := by
  have hr := protect_halt_eq_notAuthorized env f store auth r h
  exact ⟨hr, by rw [hr]; rfl⟩

/-- C4 witness: the theorem applied to the missing-header rejection. -/
theorem c4_protect_failures_indistinguishable_witness :
    (protect envX none [] AuthHeader.absent = ProtectResult.halt notAuthorized) ∧
    notAuthorized.status = 401 :=
  ⟨rfl, (c4_protect_failures_indistinguishable envX none [] AuthHeader.absent
    notAuthorized rfl).2⟩

/-- Scalar JSON values contain no fields at all. -/
lemma hasKey_str (s k : String) : (Json.str s).hasKey k = false := rfl

/-- Numeric JSON values contain no fields at all. -/
lemma hasKey_num (n : Nat) (k : String) : (Json.num n).hasKey k = false := rfl

/-- The error envelope has only the fields `status` and `message`. -/
lemma errBody_no_password (msg : String) : (errBody msg).hasKey "password" = false := by
  simp [errBody, Json.objL, jfields, Json.hasKey, JsonFields.hasKey, hasKey_str]

/-- The embedded user summary has no `password` field. -/
lemma userSummaryJson_no_password (u : User) :
    (userSummaryJson u).hasKey "password" = false := by
  simp [userSummaryJson, Json.objL, jfields, Json.hasKey, JsonFields.hasKey,
    hasKey_str, hasKey_num]

/-- The token-bearing success envelope has no `password` field. -/
lemma successAuthBody_no_password (t : WireToken) (u : User) :
    (successAuthBody t u).hasKey "password" = false := by
  simp [successAuthBody, userSummaryJson, Json.objL, jfields, Json.hasKey,
    JsonFields.hasKey, hasKey_str, hasKey_num]

/-- The `/me` profile envelope has no `password` field. -/
lemma profileBody_no_password (u : User) :
    (profileBody u).hasKey "password" = false := by
  simp [profileBody, Json.objL, jfields, Json.hasKey, JsonFields.hasKey,
    hasKey_str, hasKey_num]

/-- C5: no response of register, login, admin login or the `/me` profile
endpoint ever carries a `password` field anywhere in its JSON body — in
particular every successful response's user object omits the stored
password hash. -/
theorem c5_no_password_in_responses (env : Env)
    (f1 f2 f3 f4 f5 f6 : Option String) (store : List User) (freshId : Nat)
    (inp : RegisterInput) (inpL inpA : LoginInput) (auth : AuthHeader) :
    (register env f1 f2 store freshId inp).fst.body.hasKey "password" = false ∧
    (login env f3 store inpL).body.hasKey "password" = false ∧
    (adminLogin env f6 store inpA).body.hasKey "password" = false ∧
    (meRoute env f4 f5 store auth).body.hasKey "password" = false := by
  refine ⟨?_, ?_, ?_, ?_⟩
  · unfold register
    repeat' split
    all_goals
      simp [errBody_no_password, successAuthBody_no_password]
  · unfold login
    repeat' split
    all_goals
      simp [errBody_no_password, successAuthBody_no_password]
  · unfold adminLogin
    repeat' split
    all_goals
      simp [errBody_no_password, successAuthBody_no_password]
  · cases hpr : protect env f4 store auth with
    | halt r =>
      have hre := protect_halt_eq_notAuthorized env f4 store auth r hpr
      have hme : meRoute env f4 f5 store auth = r := by
        unfold meRoute
        rw [hpr]
      rw [hme, hre]
      simp [notAuthorized, errBody_no_password]
    | next ru =>
      have hme : meRoute env f4 f5 store auth = meHandler f5 store ru := by
        unfold meRoute
        rw [hpr]
      rw [hme]
      unfold meHandler
      repeat' split
      all_goals
        simp [errBody_no_password, profileBody_no_password]

/-- C6: email uniqueness is preserved — when some stored identity already
has the requested email, register answers with a 400 client error and the
stored identities are exactly what they were (this holds whether or not
the duplicate lookup itself throws, since the catch also answers 400
without writing). -/
theorem c6_duplicate_email_rejected (env : Env) (f1 f2 : Option String)
    (store : List User) (freshId : Nat) (inp : RegisterInput) (u : User)
    (hu : u ∈ store) (he : u.email = inp.email) :
    (register env f1 f2 store freshId inp).fst.status = 400 ∧
    (register env f1 f2 store freshId inp).snd = store := by
  cases f1 with
  | some m => exact ⟨rfl, rfl⟩
  | none =>
    have hsome : (findOneByEmail store inp.email).isSome := by
      rw [findOneByEmail, List.find?_isSome]
      exact ⟨u, hu, by rw [he]; exact beq_self_eq_true _⟩
    obtain ⟨v, hv⟩ := Option.isSome_iff_exists.mp hsome
    have hreg : register env none f2 store freshId inp =
        (⟨400, errBody "User already exists"⟩, store) := by
      unfold register
      rw [hv]
    rw [hreg]
    exact ⟨rfl, rfl⟩

/-- C6 witness: registering a second identity with aliceU's email. -/
theorem c6_duplicate_email_rejected_witness :
    (register envX none none [aliceU] 2
      ⟨"alice@x.in", "Other1!pw", "B", "M", "9123456789"⟩).fst.status = 400 ∧
    (register envX none none [aliceU] 2
      ⟨"alice@x.in", "Other1!pw", "B", "M", "9123456789"⟩).snd = [aliceU] :=
  c6_duplicate_email_rejected envX none none [aliceU] 2
    ⟨"alice@x.in", "Other1!pw", "B", "M", "9123456789"⟩ aliceU (by decide) rfl

/-- C7 counterexample: a successful login issues the token for aliceU, and
that token's signed payload is exactly `{ id: 1 }` — it has an `id` field
and no `role` field, contradicting the claim that every issued token
carries the subject's role in its payload. -/
theorem c7_token_payload_lacks_role_cex :
    login envX none [aliceU] ⟨some "alice@x.in", some "Passw0rd!"⟩ =
      ⟨200, successAuthBody (issueToken 1 envX) aliceU⟩ ∧
    (issueToken 1 envX).payload = Json.objL [("id", Json.num 1)] ∧
    (issueToken 1 envX).payload.hasKey "id" = true ∧
    (issueToken 1 envX).payload.hasKey "role" = false := by
  refine ⟨rfl, rfl, rfl, rfl⟩

/-- C7 (amended): every token issued by register, login and admin login
(all three call `issueToken`) carries the subject id and an expiry in its
signed payload, but not the subject's role; the role travels only in the
response body's user object. -/
theorem c7_token_payload_id_only (id : Nat) (env : Env) :
    (issueToken id env).payload = Json.objL [("id", Json.num id)] ∧
    (issueToken id env).exp = env.now + env.expiresIn ∧
    (issueToken id env).payload.hasKey "id" = true ∧
    (issueToken id env).payload.hasKey "role" = false := by
  refine ⟨rfl, rfl, ?_, ?_⟩ <;>
    simp [issueToken, WireToken.payload, Json.objL, jfields, Json.hasKey,
      JsonFields.hasKey, hasKey_num]

/-- C8 counterexample: a data-store throw during register's duplicate-email
lookup is answered with status 400 — not a 5xx — and the response body
carries the thrown error's own message verbatim, leaking internal detail. -/
theorem c8_register_leaks_store_error_cex :
    register envX (some "MongoNetworkError: connect ECONNREFUSED 127.0.0.1:27017")
      none [] 1 ⟨"a@b.c", "Passw0rd!", "F", "L", "9876543210"⟩ =
      (⟨400, errBody "MongoNetworkError: connect ECONNREFUSED 127.0.0.1:27017"⟩, []) := rfl

/-- C8 (amended): data-store failures are surfaced unevenly and never
retried — `/me` and admin login answer 500 with a fixed generic message,
but register and login answer 400 with the thrown error's own message in
the body. -/
theorem c8_store_failure_surfacing (env : Env) (msg : String)
    (store : List User) (freshId : Nat) (inp : RegisterInput)
    (e p : String) (u : User)
    (he : (e == "") = false) (hp : (p == "") = false) :
    register env (some msg) none store freshId inp = (⟨400, errBody msg⟩, store) ∧
    login env (some msg) store ⟨some e, some p⟩ = ⟨400, errBody msg⟩ ∧
    adminLogin env (some msg) store ⟨some e, some p⟩ =
      ⟨500, errBody "Error during admin login"⟩ ∧
    meHandler (some msg) store (some u) = ⟨500, errBody "Error retrieving user profile"⟩ := by
  refine ⟨rfl, ?_, ?_, rfl⟩
  · simp [login, falsy, he, hp]
  · simp [adminLogin, falsy, he, hp]

/-- C8 amended witness at concrete inputs. -/
theorem c8_store_failure_surfacing_witness :
    register envX (some "boom") none [] 3
      ⟨"c@b.c", "Passw0rd!", "F", "L", "9876543210"⟩ = (⟨400, errBody "boom"⟩, []) ∧
    login envX (some "boom") [] ⟨some "c@b.c", some "Passw0rd!"⟩ =
      ⟨400, errBody "boom"⟩ ∧
    adminLogin envX (some "boom") [] ⟨some "c@b.c", some "Passw0rd!"⟩ =
      ⟨500, errBody "Error during admin login"⟩ ∧
    meHandler (some "boom") [] (some aliceU) =
      ⟨500, errBody "Error retrieving user profile"⟩ :=
  c8_store_failure_surfacing envX "boom" [] 3
    ⟨"c@b.c", "Passw0rd!", "F", "L", "9876543210"⟩ "c@b.c" "Passw0rd!" aliceU
    (by decide) (by decide)

/-- C9: admin login authenticates only admin-role identities — when the
stored identity for the given email has a non-admin role (and hence no
admin record matches the `{ email, role: 'admin' }` query), the response
is 401 `Invalid admin credentials` with no token, even though the password
is correct for that identity. -/
theorem c9_admin_login_rejects_non_admin (env : Env) (store : List User)
    (e pw : String) (u : User)
    (hu : u ∈ store) (hmail : u.email = e) (hrole : u.role ≠ "admin")
    (hpw : comparePassword u.password pw = true)
    (hadmin : store.find? (fun v => v.email == e && v.role == "admin") = none)
    (he : (e == "") = false) (hp : (pw == "") = false) :
    adminLogin env none store ⟨some e, some pw⟩ =
      ⟨401, errBody "Invalid admin credentials"⟩ ∧
    (adminLogin env none store ⟨some e, some pw⟩).body.hasKey "token" = false := by
  have hresp : adminLogin env none store ⟨some e, some pw⟩ =
      ⟨401, errBody "Invalid admin credentials"⟩ := by
    simp [adminLogin, falsy, he, hp, hadmin]
  refine ⟨hresp, ?_⟩
  rw [hresp]
  simp [errBody, Json.objL, jfields, Json.hasKey, JsonFields.hasKey, hasKey_str]

/-- C9 witness: aliceU is a stored customer with the right password, and
admin login still answers 401 with no token. -/
theorem c9_admin_login_rejects_non_admin_witness :
    adminLogin envX none [aliceU] ⟨some "alice@x.in", some "Passw0rd!"⟩ =
      ⟨401, errBody "Invalid admin credentials"⟩ ∧
    (adminLogin envX none [aliceU]
      ⟨some "alice@x.in", some "Passw0rd!"⟩).body.hasKey "token" = false :=
  c9_admin_login_rejects_non_admin envX [aliceU] "alice@x.in" "Passw0rd!" aliceU
    (by decide) rfl (by decide) (by decide) (by decide) (by decide) (by decide)

/-- C10: a login with an email matching no identity and a login with a
stored email but wrong password receive the identical response — 401 with
message `Invalid credentials` — so callers cannot enumerate accounts. -/
theorem c10_login_failures_indistinguishable (env : Env) (store : List User)
    (e1 p1 e2 p2 : String) (u : User)
    (h1 : (e1 == "") = false) (h2 : (p1 == "") = false)
    (h3 : (e2 == "") = false) (h4 : (p2 == "") = false)
    (hno : findOneByEmail store e1 = none)
    (hyes : findOneByEmail store e2 = some u)
    (hbad : comparePassword u.password p2 = false) :
    login env none store ⟨some e1, some p1⟩ = login env none store ⟨some e2, some p2⟩ ∧
    login env none store ⟨some e1, some p1⟩ = ⟨401, errBody "Invalid credentials"⟩ := by
  have ha : login env none store ⟨some e1, some p1⟩ =
      ⟨401, errBody "Invalid credentials"⟩ := by
    simp [login, falsy, h1, h2, hno]
  have hb : login env none store ⟨some e2, some p2⟩ =
      ⟨401, errBody "Invalid credentials"⟩ := by
    simp [login, falsy, h3, h4, hyes, hbad]
  exact ⟨ha.trans hb.symm, ha⟩

/-- C10 witness: unknown email vs. aliceU's email with a wrong password. -/
theorem c10_login_failures_indistinguishable_witness :
    login envX none [aliceU] ⟨some "nobody@x.in", some "Whatever1!"⟩ =
      login envX none [aliceU] ⟨some "alice@x.in", some "Wrong1!pw"⟩ ∧
    login envX none [aliceU] ⟨some "nobody@x.in", some "Whatever1!"⟩ =
      ⟨401, errBody "Invalid credentials"⟩ :=
  c10_login_failures_indistinguishable envX [aliceU] "nobody@x.in" "Whatever1!"
    "alice@x.in" "Wrong1!pw" aliceU (by decide) (by decide) (by decide) (by decide)
    (by decide) (by decide) (by decide)
